import Mathlib

/-!
Verification development for the SmartNotePro note-taking application.

The embedding models the note editor component (`handleSave`, `handleKeyDown`,
the live word/character counters and the footer button `disabled` flags), the
note card component (`handleSummarize`), the dashboard orchestrator
(`saveNote`, `deleteNote`, `generateSummary`, `filteredNotes` and the derived
word-count stat), and the serverless summarization endpoint.  JavaScript
strings are modelled as Lean `String`; the regex split `split(/\s+/)`,
`trim()`, `toLowerCase()`, `includes()` and string truthiness are given
explicit executable definitions below.  Asynchronous store/service calls are
modelled by passing their outcome as an explicit parameter; the state owned by
the dashboard (plus the persisted table and the emitted toasts and service
requests) is a single record `AppState`.
-/

namespace SmartNote

/-- JavaScript whitespace (the characters of the regex class matched by
the source's uses of trim and split on runs of whitespace). -/
def isJsWs (c : Char) : Bool :=
  c == ' ' || c == '\t' || c == '\n' || c == '\r' || c == '\x0b' || c == '\x0c'

/-- Drop JavaScript whitespace from both ends of a character list. -/
def trimList (l : List Char) : List Char :=
  ((l.dropWhile isJsWs).reverse.dropWhile isJsWs).reverse

/-- Model of the JavaScript string method trim(). -/
def jsTrim (s : String) : String := String.mk (trimList s.toList)

/-- Model of the JavaScript idiom a logical-or b on strings: the empty
string is falsy, so the result is b exactly when a is empty. -/
def jsOrStr (a b : String) : String := if a = "" then b else a

/-- Model of the JavaScript string method toLowerCase() (ASCII range, which
covers every string the program compares). -/
def jsToLower (s : String) : String := String.mk (s.toList.map Char.toLower)

/-- Bool-valued check that `sub` is a leading segment of `l`. -/
def listIsPrefixOf : List Char → List Char → Bool
  | [], _ => true
  | _ :: _, [] => false
  | a :: as, b :: bs => a == b && listIsPrefixOf as bs

/-- Bool-valued check that `sub` occurs contiguously inside `l`. -/
def listContainsSub (sub : List Char) : List Char → Bool
  | [] => listIsPrefixOf sub []
  | c :: t => listIsPrefixOf sub (c :: t) || listContainsSub sub t

/-- Model of the JavaScript string method includes(): `sub` occurs as a
contiguous substring of `s`. -/
def jsIncludes (s sub : String) : Bool := listContainsSub sub.toList s.toList

/-- Helper for the split below: walks the characters one by one; `acc` holds
the current piece reversed and `prevWs` records whether the previous
character belonged to a whitespace run.  A whitespace character that starts
a run emits the current piece; further characters of the run emit nothing;
a non-whitespace character extends the current piece; the end of the input
emits the final piece. -/
def splitWsGo : List Char → List Char → Bool → List (List Char)
  | [], acc, _ => [acc.reverse]
  | c :: cs, acc, prevWs =>
    if isJsWs c then
      (if prevWs then splitWsGo cs [] true
       else acc.reverse :: splitWsGo cs [] true)
    else splitWsGo cs (c :: acc) false

/-- Model of the JavaScript regex split on runs of whitespace, as used by the
editor word counter, the note card word counter and the dashboard stat: the
pieces between maximal whitespace runs, keeping the empty piece before a
leading run and after a trailing run, and yielding the single piece [s] when
no run occurs (so the empty string splits into one empty piece). -/
def jsSplitWs (s : String) : List String := (splitWsGo s.toList [] false).map String.mk

/-- The persisted and displayed note entity (table columns id, title,
content, nullable summary, created_at, updated_at; user_id is left implicit
because the whole model is scoped to the one authenticated user). -/
structure Note where
  id : String
  title : String
  content : String
  summary : Option String
  created_at : String
  updated_at : String
deriving DecidableEq, Repr

/-- A toast notification as fired through the toast hook: title,
description, and whether the destructive variant was used. -/
structure Toast where
  title : String
  description : String
  destructive : Bool
deriving DecidableEq, Repr

/-- The payload the editor reports to its caller on save. -/
structure SavePayload where
  id : Option String
  title : String
  content : String
deriving DecidableEq, Repr

/-- The combined state: the persisted notes table `db`, the dashboard's
in-memory list and flags, the toasts fired so far (most recent first) and
the summarization requests issued so far (most recent first). -/
structure AppState where
  db : List Note
  notes : List Note
  searchTerm : String
  isEditorOpen : Bool
  editingNote : Option Note
  savingNote : Bool
  generatingSummary : Option String
  toasts : List Toast
  serviceCalls : List (String × String)
deriving DecidableEq, Repr

/-- The editor's handleSave: trim both fields, silently refuse when both are
empty, otherwise report the payload with the title falling back to the fixed
placeholder. -/
def handleSave (noteId : Option String) (title content : String) : Option SavePayload :=
  let trimmedTitle := jsTrim title
  let trimmedContent := jsTrim content
  if trimmedTitle = "" ∧ trimmedContent = "" then none
  else some { id := noteId, title := jsOrStr trimmedTitle "Untitled Note", content := trimmedContent }

/-- The editor's live word counter: trim the content, split on whitespace
runs, keep the nonempty pieces, count them. -/
def wordCount (content : String) : Nat :=
  ((jsSplitWs (jsTrim content)).filter (fun w => decide (0 < w.length))).length

/-- The editor's live character counter. -/
def charCount (content : String) : Nat := content.length

/-- The disabled flag of the editor's Save button. -/
def saveButtonDisabled (title content : String) (isLoading : Bool) : Bool :=
  isLoading || (jsTrim title == "" && jsTrim content == "")

/-- The disabled flag of the editor's Cancel button. -/
def cancelButtonDisabled (isLoading : Bool) : Bool := isLoading

/-- An action the editor reports to its caller. -/
inductive EditorAction where
  | save (p : SavePayload)
  | cancel
deriving DecidableEq, Repr

/-- The editor's handleKeyDown, attached to both input fields: Ctrl+Enter
runs handleSave (reporting a save action when the payload is accepted) and
Escape reports cancel.  The handler reads no loading flag. -/
def handleKeyDown (noteId : Option String) (title content : String)
    (ctrlKey : Bool) (key : String) : List EditorAction :=
  (if ctrlKey && key == "Enter" then
    match handleSave noteId title content with
    | some p => [EditorAction.save p]
    | none => []
  else [])
  ++ (if key == "Escape" then [EditorAction.cancel] else [])

/-- Toast fired after a successful update save. -/
def noteUpdatedToast : Toast :=
  { title := "Note updated", description := "Your changes have been saved successfully.", destructive := false }

/-- Toast fired after a successful create save. -/
def noteCreatedToast : Toast :=
  { title := "Note created", description := "Your new note has been saved successfully.", destructive := false }

/-- Toast fired by the save catch block. -/
def saveErrorToast : Toast :=
  { title := "Error saving note", description := "Please try again", destructive := true }

/-- Toast fired after a successful delete. -/
def noteDeletedToast : Toast :=
  { title := "Note deleted", description := "The note has been removed successfully.", destructive := true }

/-- Toast fired by the delete catch block. -/
def deleteErrorToast : Toast :=
  { title := "Error deleting note", description := "Please try again", destructive := true }

/-- Toast fired by the empty-content summarize guard, in the card and in the
orchestrator alike. -/
def cannotSummarizeToast : Toast :=
  { title := "Cannot summarize", description := "Please add some content to the note first.", destructive := true }

/-- Toast fired after a successful summarization. -/
def summaryGeneratedToast : Toast :=
  { title := "Summary generated!", description := "AI has successfully summarized your note.", destructive := false }

/-- Toast fired by the summarize catch block; the description is the thrown
error's message with the fixed fallback for an empty message. -/
def summaryFailedToast (msg : String) : Toast :=
  { title := "Failed to generate summary", description := jsOrStr msg "Please try again later", destructive := true }

/-- Outcome of one storage call, injected as a parameter (the store is an
external service); a failure carries the error message of the rejection. -/
inductive StoreOutcome where
  | ok
  | fail (msg : String)
deriving DecidableEq, Repr

/-- Fire a toast: prepend it to the toast log. -/
def addToast (w : AppState) (t : Toast) : AppState :=
  { w with toasts := t :: w.toasts }

/-- Look a row up by id in the persisted table (the select single step). -/
def dbFind (db : List Note) (noteId : String) : Option Note :=
  db.find? (fun n => n.id == noteId)

/-- The storage update of title and content: the matching row gets the new
title and content, and the migration's before-update trigger refreshes its
updated_at column to the current time `ts`.  Other rows are untouched. -/
def dbUpdateTitleContent (db : List Note) (noteId title content ts : String) : List Note :=
  db.map (fun n =>
    if n.id = noteId then { n with title := title, content := content, updated_at := ts } else n)

/-- The storage update of the summary column alone; the same before-update
trigger refreshes updated_at to `ts`. -/
def dbUpdateSummary (db : List Note) (noteId v ts : String) : List Note :=
  db.map (fun n =>
    if n.id = noteId then { n with summary := some v, updated_at := ts } else n)

/-- JavaScript object spread of a returned row over a list entry: the row
carries every field, so every field of the result comes from the row. -/
def spreadMerge (_note data : Note) : Note :=
  { id := data.id, title := data.title, content := data.content,
    summary := data.summary, created_at := data.created_at, updated_at := data.updated_at }

/-- The dashboard's saveNote.  A payload with an id runs the update path:
on store success the returned row is merged over the matching in-memory
entry in place, a success toast fires and the editor closes; a payload
without an id runs the insert path: the fresh row (server id `newId`,
server timestamps `ts`) is prepended to the list.  Any store failure is
caught: an error toast fires and nothing else changes.  The saving flag is
set for the duration and reset in the finally block, so it is false again
in every final state. -/
def saveNote (w : AppState) (p : SavePayload) (out : StoreOutcome) (newId ts : String) : AppState :=
  match p.id, out with
  | some pid, StoreOutcome.ok =>
    let db' := dbUpdateTitleContent w.db pid p.title p.content ts
    match dbFind db' pid with
    | some row =>
      { w with
        db := db'
        notes := w.notes.map (fun n => if n.id = pid then spreadMerge n row else n)
        toasts := noteUpdatedToast :: w.toasts
        isEditorOpen := false
        editingNote := none
        savingNote := false }
    | none =>
      { w with toasts := saveErrorToast :: w.toasts, savingNote := false }
  | some _, StoreOutcome.fail _ =>
    { w with toasts := saveErrorToast :: w.toasts, savingNote := false }
  | none, StoreOutcome.ok =>
    let row : Note :=
      { id := newId, title := p.title, content := p.content,
        summary := none, created_at := ts, updated_at := ts }
    { w with
      db := row :: w.db
      notes := row :: w.notes
      toasts := noteCreatedToast :: w.toasts
      isEditorOpen := false
      editingNote := none
      savingNote := false }
  | none, StoreOutcome.fail _ =>
    { w with toasts := saveErrorToast :: w.toasts, savingNote := false }

/-- The editor submit wiring: the dashboard passes saveNote as the editor's
save callback, so a submit runs handleSave and, only when it reports a
payload, saveNote on that payload. -/
def editorSubmit (w : AppState) (noteId : Option String) (title content : String)
    (out : StoreOutcome) (newId ts : String) : AppState :=
  match handleSave noteId title content with
  | none => w
  | some p => saveNote w p out newId ts

/-- The dashboard's deleteNote: on store success the row leaves the table
and the in-memory list and a success toast fires; a failure is caught, an
error toast fires and nothing else changes. -/
def deleteNote (w : AppState) (noteId : String) (out : StoreOutcome) : AppState :=
  match out with
  | StoreOutcome.fail _ =>
    { w with toasts := deleteErrorToast :: w.toasts }
  | StoreOutcome.ok =>
    { w with
      db := w.db.filter (fun n => !(n.id == noteId))
      notes := w.notes.filter (fun n => !(n.id == noteId))
      toasts := noteDeletedToast :: w.toasts }

/-- Outcome of the summarization service invocation: an invocation error
with its message, or a returned body whose summary field may be absent. -/
inductive InvokeResult where
  | err (msg : String)
  | ok (summary : Option String)
deriving DecidableEq, Repr

/-- Set the per-note generating marker to the given note id. -/
def setGenerating (w : AppState) (noteId : String) : AppState :=
  { w with generatingSummary := some noteId }

/-- Reset the per-note generating marker (the finally block). -/
def clearGenerating (w : AppState) : AppState :=
  { w with generatingSummary := none }

/-- The try block of generateSummary: issue the service request, throw on an
invocation error, on an absent or empty summary field, or on a failed
summary persist; otherwise persist the summary (the update trigger refreshes
updated_at to `ts`), merge it into the matching in-memory entry and fire the
success toast.  Every thrown error is caught into its failure toast. -/
def generateSummaryBody (w : AppState) (noteId title content : String)
    (inv : InvokeResult) (persist : StoreOutcome) (ts : String) : AppState :=
  let w1 := { w with serviceCalls := (title, content) :: w.serviceCalls }
  match inv with
  | InvokeResult.err m => addToast w1 (summaryFailedToast m)
  | InvokeResult.ok none => addToast w1 (summaryFailedToast "No summary received")
  | InvokeResult.ok (some v) =>
    if v = "" then addToast w1 (summaryFailedToast "No summary received")
    else
      match persist with
      | StoreOutcome.fail m => addToast w1 (summaryFailedToast m)
      | StoreOutcome.ok =>
        addToast
          { w1 with
            db := dbUpdateSummary w1.db noteId v ts
            notes := w1.notes.map (fun n =>
              if n.id = noteId then { n with summary := some v } else n) }
          summaryGeneratedToast

/-- The dashboard's generateSummary: refuse whitespace-only content with the
rejection toast and no other effect; otherwise set the generating marker,
run the body, and clear the marker in the finally block. -/
def generateSummary (w : AppState) (noteId title content : String)
    (inv : InvokeResult) (persist : StoreOutcome) (ts : String) : AppState :=
  if jsTrim content = "" then addToast w cannotSummarizeToast
  else clearGenerating (generateSummaryBody (setGenerating w noteId) noteId title content inv persist ts)

/-- The card's handleSummarize wired to the dashboard's generateSummary: the
card refuses whitespace-only content itself with the same rejection toast,
otherwise it forwards the note's id, title and content. -/
def cardHandleSummarize (w : AppState) (note : Note)
    (inv : InvokeResult) (persist : StoreOutcome) (ts : String) : AppState :=
  if jsTrim note.content = "" then addToast w cannotSummarizeToast
  else generateSummary w note.id note.title note.content inv persist ts

/-- The dashboard's filter predicate as written: title match, or content
match, or (summary truthy and summary match), all lowercased. -/
def noteMatchesCode (n : Note) (t : String) : Bool :=
  jsIncludes (jsToLower n.title) (jsToLower t) ||
  jsIncludes (jsToLower n.content) (jsToLower t) ||
  (match n.summary with
   | some s => !(s == "") && jsIncludes (jsToLower s) (jsToLower t)
   | none => false)

/-- The dashboard's visible list. -/
def filteredNotes (notes : List Note) (t : String) : List Note :=
  notes.filter (fun n => noteMatchesCode n t)

/-- The spec's filtering predicate, stated from the spec sentence for the
refinement comparison: the term occurs case-insensitively in the title, the
content, or the summary when one is present. -/
def specMatches (n : Note) (t : String) : Bool :=
  jsIncludes (jsToLower n.title) (jsToLower t) ||
  jsIncludes (jsToLower n.content) (jsToLower t) ||
  (match n.summary with
   | some s => jsIncludes (jsToLower s) (jsToLower t)
   | none => false)

/-- The dashboard's Total Words stat: a fold adding each note's count of
whitespace-split pieces of its raw content. -/
def totalWords (notes : List Note) : Nat :=
  notes.foldl (fun acc n => acc + (jsSplitWs n.content).length) 0

/-- Outcome of parsing the request body: the json call threw (message kept),
or it produced optional content and title values. -/
inductive BodyParse where
  | threw (msg : String)
  | ok (content : Option String) (title : Option String)
deriving DecidableEq, Repr

/-- Outcome of the upstream chat-completion call: the fetch or the response
decoding threw, the response was not ok, or it decoded with an optional
completion text at choices[0].message.content. -/
inductive Upstream where
  | threw (msg : String)
  | notOk
  | ok (completion : Option String)
deriving DecidableEq, Repr

/-- A response body of the endpoint: an error object or a summary object. -/
inductive RespBody where
  | errorBody (msg : String)
  | summaryBody (s : String)
deriving DecidableEq, Repr

/-- An HTTP response of the endpoint: status, optional JSON body (the
preflight answer has none), and headers. -/
structure HttpResponse where
  status : Nat
  body : Option RespBody
  headers : List (String × String)
deriving DecidableEq, Repr

/-- The permissive CORS headers attached by the endpoint. -/
def corsHeaders : List (String × String) :=
  [("Access-Control-Allow-Origin", "*"),
   ("Access-Control-Allow-Headers", "authorization, x-client-info, apikey, content-type")]

/-- The headers of every JSON response of the endpoint. -/
def jsonHeaders : List (String × String) :=
  corsHeaders ++ [("Content-Type", "application/json")]

/-- JavaScript truthiness of an optional string value: absent and empty are
both falsy. -/
def jsFalsy (o : Option String) : Bool :=
  match o with
  | none => true
  | some s => s == ""

/-- The summarization endpoint handler: answer the OPTIONS preflight with
the bare CORS headers; answer a falsy content value with 400; map an
upstream failure, an absent or empty completion, or a thrown exception to
500 with an error body; answer success with 200 and the summary body.  The
catch block uses the thrown message with the fixed fallback. -/
def serveHandler (method : String) (body : BodyParse) (up : Upstream) : HttpResponse :=
  if method = "OPTIONS" then { status := 200, body := none, headers := corsHeaders }
  else
    match body with
    | BodyParse.threw m =>
      { status := 500, body := some (RespBody.errorBody (jsOrStr m "Internal server error")),
        headers := jsonHeaders }
    | BodyParse.ok contentOpt _titleOpt =>
      if jsFalsy contentOpt then
        { status := 400, body := some (RespBody.errorBody "Content is required"),
          headers := jsonHeaders }
      else
        match up with
        | Upstream.threw m =>
          { status := 500, body := some (RespBody.errorBody (jsOrStr m "Internal server error")),
            headers := jsonHeaders }
        | Upstream.notOk =>
          { status := 500, body := some (RespBody.errorBody "Failed to generate summary"),
            headers := jsonHeaders }
        | Upstream.ok comp =>
          match comp with
          | none =>
            { status := 500, body := some (RespBody.errorBody "No summary generated"),
              headers := jsonHeaders }
          | some s =>
            if s = "" then
              { status := 500, body := some (RespBody.errorBody "No summary generated"),
                headers := jsonHeaders }
            else
              { status := 200, body := some (RespBody.summaryBody s), headers := jsonHeaders }

/-- Sample note used by concrete instances: carries a previous summary. -/
def sampleNote1 : Note :=
  { id := "n1", title := "Old", content := "old text", summary := some "S",
    created_at := "t0", updated_at := "t1" }

/-- Sample state holding sampleNote1 both persisted and in memory, with the
editor open on it. -/
def sampleState : AppState :=
  { db := [sampleNote1], notes := [sampleNote1], searchTerm := "",
    isEditorOpen := true, editingNote := some sampleNote1, savingNote := false,
    generatingSummary := none, toasts := [], serviceCalls := [] }

/-- Sample note for the summarize instances. -/
def sampleNote2 : Note :=
  { id := "n2", title := "T", content := "body", summary := some "S",
    created_at := "t0", updated_at := "t1" }

/-- Sample state holding sampleNote2. -/
def sampleState2 : AppState :=
  { db := [sampleNote2], notes := [sampleNote2], searchTerm := "",
    isEditorOpen := false, editingNote := none, savingNote := false,
    generatingSummary := none, toasts := [], serviceCalls := [] }

/-- Sample note with whitespace-only content. -/
def blankNote : Note :=
  { id := "n3", title := "Blank", content := " ", summary := none,
    created_at := "t0", updated_at := "t1" }

/-- Sample note with empty content. -/
def emptyNote : Note :=
  { id := "n4", title := "Empty", content := "", summary := none,
    created_at := "t0", updated_at := "t1" }

/-- The note of the spec's search example: title Budget Q3, content spend,
no summary. -/
def budgetNote : Note :=
  { id := "b1", title := "Budget Q3", content := "spend", summary := none,
    created_at := "t0", updated_at := "t1" }

/-- C1: for every editor state, save first trims the title and the content;
when both are empty after trimming no save callback fires and no store call
occurs, so the submit leaves the whole state (in-memory list included)
unchanged and the dialog open; otherwise the caller receives the trimmed
content and a title equal to the trimmed title, falling back to the fixed
placeholder Untitled Note when the trimmed title is empty. -/
theorem C1_editor_save_contract (w : AppState) (noteId : Option String) (title content : String)
    (out : StoreOutcome) (newId ts : String) :
    (jsTrim title = "" ∧ jsTrim content = "" →
      handleSave noteId title content = none ∧
      editorSubmit w noteId title content out newId ts = w) ∧
    (¬(jsTrim title = "" ∧ jsTrim content = "") →
      handleSave noteId title content =
        some { id := noteId, title := jsOrStr (jsTrim title) "Untitled Note",
               content := jsTrim content }) := by
  constructor
  · intro h
    constructor
    · simp [handleSave, h.1, h.2]
    · simp [editorSubmit, handleSave, h.1, h.2]
  · intro h
    simp [handleSave, h]

theorem C1_editor_save_contract_witness :
    (handleSave none " " "  " = none ∧
     editorSubmit sampleState none " " "  " StoreOutcome.ok "x" "t2" = sampleState) ∧
    handleSave none "" " hello " =
      some { id := none, title := "Untitled Note", content := "hello" } := by
  refine ⟨(C1_editor_save_contract sampleState none " " "  " StoreOutcome.ok "x" "t2").1
    (by decide), ?_⟩
  have h := (C1_editor_save_contract sampleState none "" " hello " StoreOutcome.ok "x" "t2").2
    (by decide)
  rw [h]
  decide

/-- C10: while a save is in flight the editor's Save and Cancel buttons are
disabled, but handleKeyDown reads no loading flag: with a nonempty trimmed
title or content, the Ctrl+Enter chord still reports a save action and the
Escape key still reports cancel, so a second concurrent save or a cancel
during a save stays reachable through the keyboard. -/
theorem C10_keyboard_bypasses_loading (noteId : Option String) (title content : String)
    (h : ¬(jsTrim title = "" ∧ jsTrim content = "")) :
    saveButtonDisabled title content true = true ∧
    cancelButtonDisabled true = true ∧
    handleKeyDown noteId title content true "Enter" =
      [EditorAction.save { id := noteId, title := jsOrStr (jsTrim title) "Untitled Note",
                           content := jsTrim content }] ∧
    handleKeyDown noteId title content true "Escape" = [EditorAction.cancel] ∧
    handleKeyDown noteId title content false "Escape" = [EditorAction.cancel] := by
  refine ⟨rfl, rfl, ?_, ?_, ?_⟩
  · simp [handleKeyDown, handleSave, h]
  · simp [handleKeyDown]
  · simp [handleKeyDown]

theorem C10_keyboard_bypasses_loading_witness :
    saveButtonDisabled "a" "" true = true ∧
    cancelButtonDisabled true = true ∧
    handleKeyDown none "a" "" true "Enter" =
      [EditorAction.save { id := none, title := jsOrStr (jsTrim "a") "Untitled Note",
                           content := jsTrim "" }] ∧
    handleKeyDown none "a" "" true "Escape" = [EditorAction.cancel] ∧
    handleKeyDown none "a" "" false "Escape" = [EditorAction.cancel] :=
  C10_keyboard_bypasses_loading none "a" "" (by decide)

/-- C4: summarizing a note whose content is empty or whitespace-only, from
the card or straight through the orchestrator, adds only the destructive
rejection toast: no request reaches the service and the note list, the
table, and the generating marker are unchanged. -/
theorem C4_empty_content_summarize_guard (w : AppState) (noteId title content : String)
    (inv : InvokeResult) (persist : StoreOutcome) (ts : String) (n : Note)
    (hc : jsTrim content = "") (hn : jsTrim n.content = "") :
    generateSummary w noteId title content inv persist ts = addToast w cannotSummarizeToast ∧
    cardHandleSummarize w n inv persist ts = addToast w cannotSummarizeToast ∧
    (addToast w cannotSummarizeToast).serviceCalls = w.serviceCalls ∧
    (addToast w cannotSummarizeToast).notes = w.notes ∧
    (addToast w cannotSummarizeToast).db = w.db ∧
    (addToast w cannotSummarizeToast).generatingSummary = w.generatingSummary ∧
    (addToast w cannotSummarizeToast).toasts = cannotSummarizeToast :: w.toasts ∧
    cannotSummarizeToast.destructive = true := by
  exact ⟨by simp [generateSummary, hc], by simp [cardHandleSummarize, hn],
    rfl, rfl, rfl, rfl, rfl, rfl⟩

theorem C4_empty_content_summarize_guard_witness :
    generateSummary sampleState2 "n3" "Blank" " " (InvokeResult.ok (some "V"))
        StoreOutcome.ok "t2" = addToast sampleState2 cannotSummarizeToast ∧
    cardHandleSummarize sampleState2 blankNote (InvokeResult.ok (some "V"))
        StoreOutcome.ok "t2" = addToast sampleState2 cannotSummarizeToast ∧
    (addToast sampleState2 cannotSummarizeToast).serviceCalls = sampleState2.serviceCalls ∧
    (addToast sampleState2 cannotSummarizeToast).notes = sampleState2.notes ∧
    (addToast sampleState2 cannotSummarizeToast).db = sampleState2.db ∧
    (addToast sampleState2 cannotSummarizeToast).generatingSummary = sampleState2.generatingSummary ∧
    (addToast sampleState2 cannotSummarizeToast).toasts =
      cannotSummarizeToast :: sampleState2.toasts ∧
    cannotSummarizeToast.destructive = true :=
  C4_empty_content_summarize_guard sampleState2 "n3" "Blank" " "
    (InvokeResult.ok (some "V")) StoreOutcome.ok "t2" blankNote (by decide) (by decide)

theorem generateSummaryBody_frame (w : AppState) (noteId title content : String)
    (inv : InvokeResult) (persist : StoreOutcome) (ts : String) :
    (generateSummaryBody w noteId title content inv persist ts).isEditorOpen = w.isEditorOpen ∧
    (generateSummaryBody w noteId title content inv persist ts).savingNote = w.savingNote ∧
    (generateSummaryBody w noteId title content inv persist ts).editingNote = w.editingNote ∧
    (generateSummaryBody w noteId title content inv persist ts).generatingSummary
      = w.generatingSummary ∧
    (generateSummaryBody w noteId title content inv persist ts).searchTerm = w.searchTerm := by
  cases inv with
  | err m => simp [generateSummaryBody, addToast]
  | ok s =>
    cases s with
    | none => simp [generateSummaryBody, addToast]
    | some v =>
      by_cases hv : v = "" <;> cases persist <;> simp [generateSummaryBody, addToast, hv]

/-- C5: for every summarize run on content that survives trimming, the run
factors as marker set to the note id, body, marker cleared; the state right
after the set carries the id, and the final state carries no generating id
for every service or persistence outcome, and no error state beyond the
toast log survives: the editor flags are untouched. -/
theorem C5_generating_marker_lifecycle (w : AppState) (noteId title content : String)
    (inv : InvokeResult) (persist : StoreOutcome) (ts : String)
    (hc : ¬ jsTrim content = "") :
    generateSummary w noteId title content inv persist ts =
      clearGenerating (generateSummaryBody (setGenerating w noteId)
        noteId title content inv persist ts) ∧
    (setGenerating w noteId).generatingSummary = some noteId ∧
    (generateSummary w noteId title content inv persist ts).generatingSummary = none ∧
    (generateSummary w noteId title content inv persist ts).isEditorOpen = w.isEditorOpen ∧
    (generateSummary w noteId title content inv persist ts).savingNote = w.savingNote ∧
    (generateSummary w noteId title content inv persist ts).editingNote = w.editingNote := by
  have hmain : generateSummary w noteId title content inv persist ts =
      clearGenerating (generateSummaryBody (setGenerating w noteId)
        noteId title content inv persist ts) := by
    simp [generateSummary, hc]
  have hfr := generateSummaryBody_frame (setGenerating w noteId) noteId title content inv persist ts
  refine ⟨hmain, rfl, by rw [hmain]; rfl, ?_, ?_, ?_⟩
  · rw [hmain]
    show (generateSummaryBody (setGenerating w noteId)
      noteId title content inv persist ts).isEditorOpen = w.isEditorOpen
    rw [hfr.1]
    rfl
  · rw [hmain]
    show (generateSummaryBody (setGenerating w noteId)
      noteId title content inv persist ts).savingNote = w.savingNote
    rw [hfr.2.1]
    rfl
  · rw [hmain]
    show (generateSummaryBody (setGenerating w noteId)
      noteId title content inv persist ts).editingNote = w.editingNote
    rw [hfr.2.2.1]
    rfl

theorem C5_generating_marker_lifecycle_witness :
    generateSummary sampleState2 "n2" "T" "body" (InvokeResult.err "boom") StoreOutcome.ok "t2" =
      clearGenerating (generateSummaryBody (setGenerating sampleState2 "n2")
        "n2" "T" "body" (InvokeResult.err "boom") StoreOutcome.ok "t2") ∧
    (setGenerating sampleState2 "n2").generatingSummary = some "n2" ∧
    (generateSummary sampleState2 "n2" "T" "body" (InvokeResult.err "boom")
      StoreOutcome.ok "t2").generatingSummary = none ∧
    (generateSummary sampleState2 "n2" "T" "body" (InvokeResult.err "boom")
      StoreOutcome.ok "t2").isEditorOpen = sampleState2.isEditorOpen ∧
    (generateSummary sampleState2 "n2" "T" "body" (InvokeResult.err "boom")
      StoreOutcome.ok "t2").savingNote = sampleState2.savingNote ∧
    (generateSummary sampleState2 "n2" "T" "body" (InvokeResult.err "boom")
      StoreOutcome.ok "t2").editingNote = sampleState2.editingNote :=
  C5_generating_marker_lifecycle sampleState2 "n2" "T" "body"
    (InvokeResult.err "boom") StoreOutcome.ok "t2" (by decide)

theorem dbFind_update (db : List Note) (pid title content ts : String) :
    dbFind (dbUpdateTitleContent db pid title content ts) pid =
      (dbFind db pid).map
        (fun n => { n with title := title, content := content, updated_at := ts }) := by
  induction db with
  | nil => rfl
  | cons r rs ih =>
    by_cases h : r.id = pid
    · simp [dbUpdateTitleContent, dbFind, List.find?_cons_of_pos, h]
    · have hb : (r.id == pid) = false := by simp [h]
      simp only [dbUpdateTitleContent, List.map_cons, if_neg h, dbFind] at ih ⊢
      rw [List.find?_cons_of_neg _ (by simp [hb]), List.find?_cons_of_neg _ (by simp [hb])]
      exact ih

theorem dbFind_updateSummary (db : List Note) (pid v ts : String) :
    dbFind (dbUpdateSummary db pid v ts) pid =
      (dbFind db pid).map (fun n => { n with summary := some v, updated_at := ts }) := by
  induction db with
  | nil => rfl
  | cons r rs ih =>
    by_cases h : r.id = pid
    · simp [dbUpdateSummary, dbFind, List.find?_cons_of_pos, h]
    · have hb : (r.id == pid) = false := by simp [h]
      simp only [dbUpdateSummary, List.map_cons, if_neg h, dbFind] at ih ⊢
      rw [List.find?_cons_of_neg _ (by simp [hb]), List.find?_cons_of_neg _ (by simp [hb])]
      exact ih

/-- C6: a failed store call leaves the in-memory list (and the table)
unchanged and fires a destructive toast; for a failed save the editor stays
open with its editing state intact, and the editor closes only on store
success, on the insert path and on the update path alike. -/
theorem C6_store_failure_preserves_state (w : AppState) (p : SavePayload)
    (noteId msg newId ts pid : String) (r : Note) (hr : dbFind w.db pid = some r) :
    ((saveNote w p (StoreOutcome.fail msg) newId ts).notes = w.notes ∧
     (saveNote w p (StoreOutcome.fail msg) newId ts).db = w.db ∧
     (saveNote w p (StoreOutcome.fail msg) newId ts).isEditorOpen = w.isEditorOpen ∧
     (saveNote w p (StoreOutcome.fail msg) newId ts).editingNote = w.editingNote ∧
     (saveNote w p (StoreOutcome.fail msg) newId ts).toasts = saveErrorToast :: w.toasts ∧
     saveErrorToast.destructive = true) ∧
    ((deleteNote w noteId (StoreOutcome.fail msg)).notes = w.notes ∧
     (deleteNote w noteId (StoreOutcome.fail msg)).db = w.db ∧
     (deleteNote w noteId (StoreOutcome.fail msg)).isEditorOpen = w.isEditorOpen ∧
     (deleteNote w noteId (StoreOutcome.fail msg)).toasts = deleteErrorToast :: w.toasts ∧
     deleteErrorToast.destructive = true) ∧
    (saveNote w { id := none, title := p.title, content := p.content }
      StoreOutcome.ok newId ts).isEditorOpen = false ∧
    (saveNote w { id := some pid, title := p.title, content := p.content }
      StoreOutcome.ok newId ts).isEditorOpen = false := by
  refine ⟨?_, ⟨rfl, rfl, rfl, rfl, rfl⟩, rfl, ?_⟩
  · cases hp : p.id <;>
      exact ⟨by simp [saveNote, hp], by simp [saveNote, hp], by simp [saveNote, hp],
        by simp [saveNote, hp], by simp [saveNote, hp], rfl⟩
  · simp [saveNote, dbFind_update, hr]

theorem C6_store_failure_preserves_state_witness :
    ((saveNote sampleState { id := some "n1", title := "A", content := "b" }
        (StoreOutcome.fail "down") "x" "t2").notes = sampleState.notes ∧
     (saveNote sampleState { id := some "n1", title := "A", content := "b" }
        (StoreOutcome.fail "down") "x" "t2").db = sampleState.db ∧
     (saveNote sampleState { id := some "n1", title := "A", content := "b" }
        (StoreOutcome.fail "down") "x" "t2").isEditorOpen = sampleState.isEditorOpen ∧
     (saveNote sampleState { id := some "n1", title := "A", content := "b" }
        (StoreOutcome.fail "down") "x" "t2").editingNote = sampleState.editingNote ∧
     (saveNote sampleState { id := some "n1", title := "A", content := "b" }
        (StoreOutcome.fail "down") "x" "t2").toasts = saveErrorToast :: sampleState.toasts ∧
     saveErrorToast.destructive = true) ∧
    ((deleteNote sampleState "n1" (StoreOutcome.fail "down")).notes = sampleState.notes ∧
     (deleteNote sampleState "n1" (StoreOutcome.fail "down")).db = sampleState.db ∧
     (deleteNote sampleState "n1" (StoreOutcome.fail "down")).isEditorOpen
       = sampleState.isEditorOpen ∧
     (deleteNote sampleState "n1" (StoreOutcome.fail "down")).toasts
       = deleteErrorToast :: sampleState.toasts ∧
     deleteErrorToast.destructive = true) ∧
    (saveNote sampleState { id := none, title := "A", content := "b" }
      StoreOutcome.ok "x" "t2").isEditorOpen = false ∧
    (saveNote sampleState { id := some "n1", title := "A", content := "b" }
      StoreOutcome.ok "x" "t2").isEditorOpen = false :=
  C6_store_failure_preserves_state sampleState
    { id := some "n1", title := "A", content := "b" } "n1" "down" "x" "t2" "n1"
    sampleNote1 (by decide)

/-- C2 counterexample: an update-save on a stored note changes more than
title and content: the migration's before-update trigger refreshes
updated_at, and the refreshed row is what the merge writes back into the
in-memory list, so the entry's updated_at moves from t1 to t2. -/
theorem C2_counterexample :
    (saveNote sampleState { id := some "n1", title := "New", content := "new text" }
        StoreOutcome.ok "x" "t2").notes =
      [{ id := "n1", title := "New", content := "new text", summary := some "S",
         created_at := "t0", updated_at := "t2" }] ∧
    sampleState.notes = [sampleNote1] ∧
    ¬ ("t2" : String) = sampleNote1.updated_at := by decide

/-- C2 amended: for every note in the in-memory list and every update-save
of that note, the summary after equals the summary before, the list keeps
its length and order (ids pointwise), and every non-matching entry is fully
unchanged; on the matching entry only title, content and the
server-refreshed updated_at may change, and the persisted row likewise
keeps its summary, id and created_at. -/
theorem C2_update_preserves_summary (w : AppState) (pid title content newId ts : String)
    (r : Note) (hr : dbFind w.db pid = some r)
    (hsync : ∀ n ∈ w.notes, n.id = pid → n.summary = r.summary) :
    dbFind (saveNote w { id := some pid, title := title, content := content }
        StoreOutcome.ok newId ts).db pid =
      some { r with title := title, content := content, updated_at := ts } ∧
    (saveNote w { id := some pid, title := title, content := content }
        StoreOutcome.ok newId ts).notes.length = w.notes.length ∧
    (∀ i (h : i < w.notes.length)
        (h' : i < (saveNote w { id := some pid, title := title, content := content }
          StoreOutcome.ok newId ts).notes.length),
      ((saveNote w { id := some pid, title := title, content := content }
          StoreOutcome.ok newId ts).notes[i]).id = (w.notes[i]).id ∧
      ((saveNote w { id := some pid, title := title, content := content }
          StoreOutcome.ok newId ts).notes[i]).summary = (w.notes[i]).summary ∧
      (¬ (w.notes[i]).id = pid →
        (saveNote w { id := some pid, title := title, content := content }
          StoreOutcome.ok newId ts).notes[i] = w.notes[i])) := by
  have hrid : r.id = pid := by
    have := List.find?_some hr
    simpa using this
  have hnotes : (saveNote w { id := some pid, title := title, content := content }
      StoreOutcome.ok newId ts).notes =
      w.notes.map (fun n => if n.id = pid then
        spreadMerge n { r with title := title, content := content, updated_at := ts }
        else n) := by
    simp [saveNote, dbFind_update, hr]
  refine ⟨by simp [saveNote, dbFind_update, hr], by rw [hnotes]; exact List.length_map _ _, ?_⟩
  intro i h h'
  have hmem : w.notes[i] ∈ w.notes := List.getElem_mem h
  by_cases hid : (w.notes[i]).id = pid
  · refine ⟨?_, ?_, fun hne => absurd hid hne⟩
    · simp only [hnotes, List.getElem_map]
      rw [if_pos hid]
      simp only [spreadMerge]
      exact hrid.trans hid.symm
    · simp only [hnotes, List.getElem_map]
      rw [if_pos hid]
      simp only [spreadMerge]
      exact (hsync _ hmem hid).symm
  · have hget : (saveNote w { id := some pid, title := title, content := content }
        StoreOutcome.ok newId ts).notes[i] = w.notes[i] := by
      simp only [hnotes, List.getElem_map]
      rw [if_neg hid]
    exact ⟨by rw [hget], by rw [hget], fun _ => hget⟩

theorem C2_update_preserves_summary_witness :
    dbFind (saveNote sampleState { id := some "n1", title := "New", content := "nc" }
        StoreOutcome.ok "x" "t2").db "n1" =
      some { sampleNote1 with title := "New", content := "nc", updated_at := "t2" } ∧
    (saveNote sampleState { id := some "n1", title := "New", content := "nc" }
        StoreOutcome.ok "x" "t2").notes.length = sampleState.notes.length := by
  have h := C2_update_preserves_summary sampleState "n1" "New" "nc" "x" "t2"
    sampleNote1 (by decide) (by decide)
  exact ⟨h.1, h.2.1⟩

/-- C3 counterexample: a successful summarize does overwrite the summary
with the new value, but the persisted row does not keep all its other
fields: the update trigger refreshes its updated_at from t1 to t2, so the
claim that all fields besides the summary are unchanged fails. -/
theorem C3_counterexample :
    (generateSummary sampleState2 "n2" "T" "body" (InvokeResult.ok (some "V"))
        StoreOutcome.ok "t2").db =
      [{ id := "n2", title := "T", content := "body", summary := some "V",
         created_at := "t0", updated_at := "t2" }] ∧
    (generateSummary sampleState2 "n2" "T" "body" (InvokeResult.ok (some "V"))
        StoreOutcome.ok "t2").notes =
      [{ id := "n2", title := "T", content := "body", summary := some "V",
         created_at := "t0", updated_at := "t1" }] ∧
    sampleState2.db = [sampleNote2] ∧
    ¬ ("t2" : String) = sampleNote2.updated_at := by decide

/-- C3 amended: after a successful summarize returning V, the in-memory and
the persisted summary of the note both equal exactly V (full overwrite of
any previous value, no merge); in memory every other field and every other
note are unchanged, and in the table every other note is unchanged while on
the matching row only the summary and the trigger-refreshed updated_at
change. -/
theorem C3_summary_overwrite (w : AppState) (noteId title content V newTs : String)
    (hc : ¬ jsTrim content = "") (hV : ¬ V = "") :
    (generateSummary w noteId title content (InvokeResult.ok (some V))
        StoreOutcome.ok newTs).notes.length = w.notes.length ∧
    (∀ i (h : i < w.notes.length)
        (h' : i < (generateSummary w noteId title content (InvokeResult.ok (some V))
          StoreOutcome.ok newTs).notes.length),
      ((w.notes[i]).id = noteId →
        (generateSummary w noteId title content (InvokeResult.ok (some V))
          StoreOutcome.ok newTs).notes[i] = { w.notes[i] with summary := some V }) ∧
      (¬ (w.notes[i]).id = noteId →
        (generateSummary w noteId title content (InvokeResult.ok (some V))
          StoreOutcome.ok newTs).notes[i] = w.notes[i])) ∧
    (generateSummary w noteId title content (InvokeResult.ok (some V))
        StoreOutcome.ok newTs).db.length = w.db.length ∧
    (∀ i (h : i < w.db.length)
        (h' : i < (generateSummary w noteId title content (InvokeResult.ok (some V))
          StoreOutcome.ok newTs).db.length),
      ((w.db[i]).id = noteId →
        (generateSummary w noteId title content (InvokeResult.ok (some V))
          StoreOutcome.ok newTs).db[i] =
            { w.db[i] with summary := some V, updated_at := newTs }) ∧
      (¬ (w.db[i]).id = noteId →
        (generateSummary w noteId title content (InvokeResult.ok (some V))
          StoreOutcome.ok newTs).db[i] = w.db[i])) ∧
    (∀ r, dbFind w.db noteId = some r →
      dbFind (generateSummary w noteId title content (InvokeResult.ok (some V))
        StoreOutcome.ok newTs).db noteId = some { r with summary := some V, updated_at := newTs }) := by
  have hnotes : (generateSummary w noteId title content (InvokeResult.ok (some V))
      StoreOutcome.ok newTs).notes =
      w.notes.map (fun n => if n.id = noteId then { n with summary := some V } else n) := by
    simp [generateSummary, hc, generateSummaryBody, hV, clearGenerating, setGenerating, addToast]
  have hdb : (generateSummary w noteId title content (InvokeResult.ok (some V))
      StoreOutcome.ok newTs).db = dbUpdateSummary w.db noteId V newTs := by
    simp [generateSummary, hc, generateSummaryBody, hV, clearGenerating, setGenerating, addToast]
  refine ⟨by rw [hnotes]; exact List.length_map _ _, ?_, ?_, ?_, ?_⟩
  · intro i h h'
    constructor
    · intro hid
      simp only [hnotes, List.getElem_map, hid, if_pos]
    · intro hid
      simp only [hnotes, List.getElem_map, hid, if_neg, not_false_iff]
  · rw [hdb]
    exact List.length_map _ _
  · intro i h h'
    constructor
    · intro hid
      simp only [hdb, dbUpdateSummary, List.getElem_map, hid, if_pos]
    · intro hid
      simp only [hdb, dbUpdateSummary, List.getElem_map, hid, if_neg, not_false_iff]
  · intro r hr
    rw [hdb, dbFind_updateSummary, hr]
    rfl

theorem C3_summary_overwrite_witness :
    (generateSummary sampleState2 "n2" "T" "body" (InvokeResult.ok (some "V"))
        StoreOutcome.ok "t2").notes.length = sampleState2.notes.length ∧
    dbFind (generateSummary sampleState2 "n2" "T" "body" (InvokeResult.ok (some "V"))
        StoreOutcome.ok "t2").db "n2" =
      some { sampleNote2 with summary := some "V", updated_at := "t2" } := by
  have h := C3_summary_overwrite sampleState2 "n2" "T" "body" "V" "t2"
    (by decide) (by decide)
  exact ⟨h.1, h.2.2.2.2 sampleNote2 (by decide)⟩

theorem listContainsSub_nil (hay : List Char) : listContainsSub [] hay = true := by
  cases hay with
  | nil => rfl
  | cons c t => rfl

theorem jsIncludes_empty_sub (s : String) : jsIncludes s "" = true := by
  have h : ("" : String).toList = [] := rfl
  rw [jsIncludes, h]
  exact listContainsSub_nil _

theorem jsIncludes_of_empty_hay {sub : String} (h : jsIncludes "" sub = true) : sub = "" := by
  rw [jsIncludes] at h
  have h0 : ("" : String).toList = [] := rfl
  rw [h0] at h
  cases hs : sub.toList with
  | nil =>
    cases sub with
    | mk data =>
      simp only [String.toList] at hs
      simp [hs]
  | cons c t =>
    rw [hs] at h
    simp [listContainsSub, listIsPrefixOf] at h

theorem jsToLower_eq_empty {t : String} (h : jsToLower t = "") : t = "" := by
  cases t with
  | mk data =>
    cases data with
    | nil => rfl
    | cons c cs =>
      exfalso
      have h2 := congrArg String.toList h
      have h3 : Char.toLower c :: List.map Char.toLower cs = ([] : List Char) := h2
      exact List.cons_ne_nil _ _ h3

theorem noteMatches_eq_spec (n : Note) (t : String) :
    noteMatchesCode n t = specMatches n t := by
  unfold noteMatchesCode specMatches
  cases hs : n.summary with
  | none => rfl
  | some s =>
    by_cases he : s = ""
    · subst he
      have hsum : jsIncludes (jsToLower "") (jsToLower t) = jsIncludes "" (jsToLower t) := rfl
      by_cases ht : jsIncludes (jsToLower n.title) (jsToLower t) = true
      · simp [ht]
      · by_cases hc : jsIncludes (jsToLower n.content) (jsToLower t) = true
        · simp [hc]
        · have hrhs : jsIncludes (jsToLower "") (jsToLower t) = false := by
            rw [hsum]
            by_contra hx
            rw [Bool.not_eq_false] at hx
            have ht0 : jsToLower t = "" := jsIncludes_of_empty_hay hx
            have ht1 : t = "" := jsToLower_eq_empty ht0
            subst ht1
            exact ht (jsIncludes_empty_sub _)
          simp [ht, hc, hrhs]
    · have hb : (s == "") = false := by simp [he]
      simp [hb]

/-- C7: the visible list is exactly the notes whose title, content, or
summary (when present) contains the search term as a case-insensitive
substring; the empty term keeps every note, and the Budget Q3 / spend note
matches the terms budget and spend but not q4. -/
theorem C7_search_filter (notes : List Note) (t : String) (n : Note) :
    (n ∈ filteredNotes notes t ↔ n ∈ notes ∧ specMatches n t = true) ∧
    filteredNotes notes "" = notes ∧
    filteredNotes [budgetNote] "budget" = [budgetNote] ∧
    filteredNotes [budgetNote] "spend" = [budgetNote] ∧
    filteredNotes [budgetNote] "q4" = [] := by
  refine ⟨?_, ?_, by decide, by decide, by decide⟩
  · rw [filteredNotes]
    simp [List.mem_filter, noteMatches_eq_spec]
  · apply List.filter_eq_self.mpr
    intro a _
    rw [noteMatches_eq_spec]
    unfold specMatches
    have h0 : jsToLower "" = "" := rfl
    rw [h0, jsIncludes_empty_sub]
    simp

theorem serveHandler_headers (method : String) (body : BodyParse) (up : Upstream) :
    (serveHandler method body up).headers = corsHeaders ∨
    (serveHandler method body up).headers = jsonHeaders := by
  unfold serveHandler
  repeat' split
  all_goals simp

/-- C9: every response of the summarization endpoint, the OPTIONS preflight
included, carries the permissive CORS headers; a body without a content
value answers 400 with an error body; an upstream failure, an absent or
empty completion, and a thrown exception each answer 500 with an error
body; and a nonempty completion answers 200 with the summary body. -/
theorem C9_endpoint_contract (method : String) (body : BodyParse) (up : Upstream)
    (t : Option String) (c s m : String) :
    (∀ h ∈ corsHeaders, h ∈ (serveHandler method body up).headers) ∧
    serveHandler "OPTIONS" body up = { status := 200, body := none, headers := corsHeaders } ∧
    (¬ method = "OPTIONS" →
      serveHandler method (BodyParse.ok none t) up =
        { status := 400, body := some (RespBody.errorBody "Content is required"),
          headers := jsonHeaders } ∧
      ((serveHandler method (BodyParse.threw m) up).status = 500 ∧
        ∃ e, (serveHandler method (BodyParse.threw m) up).body
          = some (RespBody.errorBody e)) ∧
      (¬ c = "" →
        serveHandler method (BodyParse.ok (some c) t) Upstream.notOk =
          { status := 500, body := some (RespBody.errorBody "Failed to generate summary"),
            headers := jsonHeaders } ∧
        serveHandler method (BodyParse.ok (some c) t) (Upstream.ok none) =
          { status := 500, body := some (RespBody.errorBody "No summary generated"),
            headers := jsonHeaders } ∧
        serveHandler method (BodyParse.ok (some c) t) (Upstream.ok (some "")) =
          { status := 500, body := some (RespBody.errorBody "No summary generated"),
            headers := jsonHeaders } ∧
        ((serveHandler method (BodyParse.ok (some c) t) (Upstream.threw m)).status = 500 ∧
          ∃ e, (serveHandler method (BodyParse.ok (some c) t) (Upstream.threw m)).body
            = some (RespBody.errorBody e)) ∧
        (¬ s = "" →
          serveHandler method (BodyParse.ok (some c) t) (Upstream.ok (some s)) =
            { status := 200, body := some (RespBody.summaryBody s),
              headers := jsonHeaders }))) := by
  refine ⟨?_, by simp [serveHandler], ?_⟩
  · intro h hh
    rcases serveHandler_headers method body up with hc | hc
    · rw [hc]
      exact hh
    · rw [hc, jsonHeaders]
      exact List.mem_append_left _ hh
  · intro hm
    have hfc : jsFalsy (some c) = (c == "") := rfl
    refine ⟨by simp [serveHandler, hm, jsFalsy], ⟨by simp [serveHandler, hm], ?_⟩, ?_⟩
    · exact ⟨jsOrStr m "Internal server error", by simp [serveHandler, hm]⟩
    · intro hcne
      have hb : (c == "") = false := by simp [hcne]
      refine ⟨by simp [serveHandler, hm, jsFalsy, hb], by simp [serveHandler, hm, jsFalsy, hb],
        by simp [serveHandler, hm, jsFalsy, hb],
        ⟨by simp [serveHandler, hm, jsFalsy, hb],
          ⟨jsOrStr m "Internal server error", by simp [serveHandler, hm, jsFalsy, hb]⟩⟩, ?_⟩
      intro hsne
      simp [serveHandler, hm, jsFalsy, hb, hsne]

theorem C9_endpoint_contract_witness :
    (∀ h ∈ corsHeaders, h ∈ (serveHandler "POST" (BodyParse.ok (some "note body") none)
      (Upstream.ok (some "the summary"))).headers) ∧
    serveHandler "OPTIONS" (BodyParse.ok (some "note body") none)
        (Upstream.ok (some "the summary")) =
      { status := 200, body := none, headers := corsHeaders } ∧
    serveHandler "POST" (BodyParse.ok none none) (Upstream.ok (some "the summary")) =
      { status := 400, body := some (RespBody.errorBody "Content is required"),
        headers := jsonHeaders } ∧
    serveHandler "POST" (BodyParse.ok (some "note body") none) (Upstream.ok (some "the summary")) =
      { status := 200, body := some (RespBody.summaryBody "the summary"),
        headers := jsonHeaders } := by
  have h := C9_endpoint_contract "POST" (BodyParse.ok (some "note body") none)
    (Upstream.ok (some "the summary")) none "note body" "the summary" "boom"
  have h3 := h.2.2 (by decide)
  exact ⟨h.1, h.2.1, h3.1, (h3.2.2 (by decide)).2.2.2.2 (by decide)⟩

theorem getLast?_of_cons {c : Char} {cs : List Char} {x : Char}
    (hx : cs.getLast? = some x) : (c :: cs).getLast? = some x := by
  cases cs with
  | nil => cases hx
  | cons d ds => rw [List.getLast?_cons_cons]; exact hx

theorem splitWsGo_ne_nil : ∀ (l acc : List Char) (prevWs : Bool),
    (∀ x, l.getLast? = some x → isJsWs x = false) →
    (l = [] → ¬ acc = []) →
    (acc = [] → prevWs = false → ∀ c cs, l = c :: cs → isJsWs c = false) →
    ∀ p ∈ splitWsGo l acc prevWs, ¬ p = [] := by
  intro l
  induction l with
  | nil =>
    intro acc prevWs _ h2 _ p hp
    rw [splitWsGo, List.mem_singleton] at hp
    subst hp
    rw [List.reverse_eq_nil_iff]
    exact h2 rfl
  | cons c cs ih =>
    intro acc prevWs hl h2 h3
    have hl' : ∀ x, cs.getLast? = some x → isJsWs x = false :=
      fun x hx => hl x (getLast?_of_cons hx)
    have h2ws : isJsWs c = true → ¬ cs = [] := by
      intro hc hcs
      subst hcs
      have : isJsWs c = false := hl c (by simp)
      rw [hc] at this
      cases this
    by_cases hc : isJsWs c = true
    · have hcs : ¬ cs = [] := h2ws hc
      have hrec : ∀ p ∈ splitWsGo cs [] true, ¬ p = [] := by
        refine ih [] true hl' (fun h => absurd h hcs) ?_
        intro _ hpf
        cases hpf
      cases hprev : prevWs with
      | true =>
        intro p hp
        rw [splitWsGo, if_pos hc, if_pos rfl] at hp
        exact hrec p hp
      | false =>
        have hacc : ¬ acc = [] := by
          intro ha
          have := h3 ha hprev c cs rfl
          rw [hc] at this
          cases this
        intro p hp
        rw [splitWsGo, if_pos hc] at hp
        simp only [if_neg Bool.false_ne_true, List.mem_cons] at hp
        rcases hp with hp | hp
        · subst hp
          rw [List.reverse_eq_nil_iff]
          exact hacc
        · exact hrec p hp
    · have hcb : isJsWs c = false := by
        cases h : isJsWs c with
        | true => exact absurd h hc
        | false => rfl
      intro p hp
      rw [splitWsGo, if_neg (by rw [hcb]; exact Bool.false_ne_true)] at hp
      refine ih (c :: acc) false hl' (fun _ => List.cons_ne_nil _ _) ?_ p hp
      intro h
      cases h

theorem trimList_eq_self (l : List Char)
    (hh : ∀ c cs, l = c :: cs → isJsWs c = false)
    (hl : ∀ x, l.getLast? = some x → isJsWs x = false) :
    trimList l = l := by
  have h1 : l.dropWhile isJsWs = l := by
    cases l with
    | nil => rfl
    | cons c cs =>
      rw [List.dropWhile_cons, hh c cs rfl]
      simp
  rw [trimList, h1]
  have h2 : l.reverse.dropWhile isJsWs = l.reverse := by
    cases hr : l.reverse with
    | nil => rfl
    | cons c cs =>
      have hgl : l.getLast? = some c := by
        rw [← List.head?_reverse, hr]
        rfl
      rw [List.dropWhile_cons, hl c hgl]
      simp
  rw [h2, List.reverse_reverse]

theorem foldl_add_map (f : Note → Nat) : ∀ (l : List Note) (a : Nat),
    l.foldl (fun acc n => acc + f n) a = a + (l.map f).sum := by
  intro l
  induction l with
  | nil => intro a; simp
  | cons n ns ih =>
    intro a
    simp only [List.foldl_cons, List.map_cons, List.sum_cons, ih, Nat.add_assoc]

theorem wordCount_eq_pieces (c : String) :
    wordCount c = ((splitWsGo (trimList c.toList) [] false).filter
      (fun p => decide (0 < p.length))).length := by
  rw [wordCount]
  have h1 : jsSplitWs (jsTrim c) =
      (splitWsGo (trimList c.toList) [] false).map String.mk := rfl
  rw [h1, List.filter_map, List.length_map]
  rfl

/-- C8 counterexample: the dashboard stat splits the raw content and counts
every piece, while the editor trims and drops the empty pieces, so a note
with empty content contributes 1 to the dashboard stat while the editor
displays 0 for the same string. -/
theorem C8_counterexample :
    (jsSplitWs "").length = 1 ∧ wordCount "" = 0 ∧
    totalWords [emptyNote] = 1 ∧ wordCount emptyNote.content = 0 ∧
    ¬ totalWords [emptyNote] = wordCount emptyNote.content := by decide

/-- C8 amended: the dashboard stat is the sum over the listed notes of the
per-note piece count of the raw content, and this per-note count equals the
editor's displayed word count whenever the content is nonempty and neither
starts nor ends with whitespace; on empty content the two rules disagree
(dashboard 1, editor 0). -/
theorem C8_dashboard_vs_editor_count (c : String) (notes : List Note)
    (h0 : ¬ c.toList = [])
    (hh : c.toList.head?.all (fun ch => !isJsWs ch) = true)
    (hl : c.toList.getLast?.all (fun ch => !isJsWs ch) = true) :
    (jsSplitWs c).length = wordCount c ∧
    totalWords notes = (notes.map (fun n => (jsSplitWs n.content).length)).sum := by
  constructor
  · have hhead : ∀ ch chs, c.toList = ch :: chs → isJsWs ch = false := by
      intro ch chs hcl
      rw [hcl] at hh
      simpa using hh
    have hlast : ∀ x, c.toList.getLast? = some x → isJsWs x = false := by
      intro x hx
      rw [hx] at hl
      simpa using hl
    have htr : trimList c.toList = c.toList := trimList_eq_self _ hhead hlast
    have hne := splitWsGo_ne_nil c.toList [] false hlast
      (fun h => absurd h h0) (fun _ _ => hhead)
    have hfil : (splitWsGo c.toList [] false).filter (fun p => decide (0 < p.length)) =
        splitWsGo c.toList [] false := by
      apply List.filter_eq_self.mpr
      intro p hp
      have hp' := hne p hp
      simpa [List.length_pos] using hp'
    rw [wordCount_eq_pieces, htr, hfil, jsSplitWs, List.length_map]
  · rw [totalWords, foldl_add_map]
    simp

theorem C8_dashboard_vs_editor_count_witness :
    (jsSplitWs "hello world").length = wordCount "hello world" ∧
    totalWords [budgetNote] =
      ([budgetNote].map (fun n => (jsSplitWs n.content).length)).sum :=
  C8_dashboard_vs_editor_count "hello world" [budgetNote] (by decide) (by decide) (by decide)

end SmartNote
